import Mathlib

/-!
Verification development for the Data Loader & Explorer application
(`src/streamlit_app.py`).  The Python program is shallowly embedded:
pure string manipulation is translated to Lean functions over `String`
(`String.data : List Char` is used for the primitive operations so that
everything is executable and provable), the session-state mutations of
the history log become explicit list passing, and the warehouse calls
of the upload flow become an explicit state-passing step function.
-/

/-! ## Python string primitives

Each helper mirrors the exact semantics of the Python string operation
used by the source, restricted to what the source needs (e.g. `str.replace`
is only ever called with single-character patterns, so it is charwise). -/

/-- Python `str.lower()` (charwise ASCII lowering, as used on file names). -/
def py_lower (s : String) : String := ⟨s.data.map Char.toLower⟩

/-- Python `str.upper()` (charwise ASCII raising, as used on table names). -/
def py_upper (s : String) : String := ⟨s.data.map Char.toUpper⟩

/-- Python `str.endswith(t)`: `t` is a suffix of `s`. -/
def py_endswith (s t : String) : Bool := t.data.isSuffixOf s.data

/-- Python `str.startswith(t)`: `t` is a prefix of `s`. -/
def py_startswith (s t : String) : Bool := t.data.isPrefixOf s.data

/-- Python `str.replace(a, b)` for a single-character pattern and
single-character replacement, which is charwise substitution. -/
def py_replace_char (s : String) (a b : Char) : String :=
  ⟨s.data.map fun c => if c = a then b else c⟩

/-- Python slice `s[:n]` (first `n` characters). -/
def py_take (s : String) (n : Nat) : String := ⟨s.data.take n⟩

/-- Characters treated as whitespace by Python `str.strip()` on the
inputs the source handles. -/
def py_is_ws (c : Char) : Bool := c = ' ' ∨ c = '\t' ∨ c = '\n' ∨ c = '\r'

/-- Python `str.strip()`: drop leading and trailing whitespace. -/
def py_strip (s : String) : String :=
  ⟨((s.data.dropWhile py_is_ws).reverse.dropWhile py_is_ws).reverse⟩

/-- Helper for `py_split_nl`: accumulate the current chunk (reversed). -/
def py_split_nl_aux : List Char → List Char → List String
  | acc, [] => [⟨acc.reverse⟩]
  | acc, c :: rest =>
    if c = '\n' then ⟨acc.reverse⟩ :: py_split_nl_aux [] rest
    else py_split_nl_aux (c :: acc) rest

/-- Python `str.split('\n')`: split on every newline, keeping empty chunks. -/
def py_split_nl (s : String) : List String := py_split_nl_aux [] s.data

/-- Python `sep.join(xs)`. -/
def py_join (sep : String) : List String → String
  | [] => ""
  | [x] => x
  | x :: xs => x ++ sep ++ py_join sep xs

/-- Python `str.rsplit('.', 1)[0]`: everything before the last dot, or the
whole string when it has no dot (used for the filename-derived default
table name). -/
def py_rsplit_dot_head (s : String) : String :=
  if s.data.contains '.' then ⟨((s.data.reverse.dropWhile (· ≠ '.')).drop 1).reverse⟩
  else s

/-! ## File Type Detector (`detect_file_type`, src lines 225-241) -/

/-- Translation of `detect_file_type`: the uploaded file's name is
lowercased and matched against known extensions; anything else is
`UNKNOWN`.  Only the name is inspected, never the content. -/
def detect_file_type (filename : String) : String :=
  let f := py_lower filename
  if py_endswith f ".csv" then "CSV"
  else if py_endswith f ".tsv" then "TSV"
  else if py_endswith f ".json" || py_endswith f ".jsonl" then "JSON"
  else if py_endswith f ".parquet" then "PARQUET"
  else if py_endswith f ".avro" then "AVRO"
  else if py_endswith f ".orc" then "ORC"
  else "UNKNOWN"

/-! ## History Log (`add_query_history`, src lines 214-223) -/

/-- One entry of the query history (`record` dict in `add_query_history`). -/
structure HistoryRecord where
  timestamp : Nat
  query : String
  status : String
  rows : Nat
deriving DecidableEq, Repr

/-- The truncation applied to the stored query text:
`query[:100] + '...' if len(query) > 100 else query`. -/
def truncate_query (q : String) : String :=
  if q.length > 100 then py_take q 100 ++ "..." else q

/-- The record built by `add_query_history` from one call's arguments. -/
def mk_history_record (ts : Nat) (q status : String) (rows : Nat) : HistoryRecord :=
  ⟨ts, truncate_query q, status, rows⟩

/-- Translation of `add_query_history`: build the record, insert it at
position 0, then keep only the first 10 entries. -/
def add_query_history (hist : List HistoryRecord) (ts : Nat) (q status : String)
    (rows : Nat) : List HistoryRecord :=
  ((mk_history_record ts q status rows) :: hist).take 10

/-- The arguments of one `add_query_history` call (used to state facts
about sequences of calls). -/
structure RecordCall where
  ts : Nat
  query : String
  status : String
  rows : Nat
deriving DecidableEq

/-- Apply one recorded call to a history list. -/
def apply_record_call (hist : List HistoryRecord) (c : RecordCall) : List HistoryRecord :=
  add_query_history hist c.ts c.query c.status c.rows

/-- The history record a call produces. -/
def record_of_call (c : RecordCall) : HistoryRecord :=
  mk_history_record c.ts c.query c.status c.rows

/-! ## Query Fragment Assembler (`render_explore_page`, src lines 795-844) -/

/-- Translation of `quote_column`: wrap a column name in double quotes
to preserve its case. -/
def quote_column (col_name : String) : String := "\"" ++ col_name ++ "\""

/-- One structured filter condition as collected by the explore page. -/
structure FilterCondition where
  column : String
  operator : String
  value : String
  logic : String
deriving DecidableEq, Repr

/-- The operators that take no right-hand value. -/
def is_nullary_op (op : String) : Bool := op = "IS NULL" || op = "IS NOT NULL"

/-- The fragment emitted for one condition (src lines 811-815): the quoted
column and operator, plus the verbatim value for binary operators. -/
def condition_fragment (cond : FilterCondition) : String :=
  if is_nullary_op cond.operator then
    quote_column cond.column ++ " " ++ cond.operator
  else
    quote_column cond.column ++ " " ++ cond.operator ++ " " ++ cond.value

/-- Translation of the `where_parts` loop (src lines 809-817): each
condition contributes its fragment, followed by its logic token whenever
that token is non-empty. -/
def where_parts : List FilterCondition → List String
  | [] => []
  | cond :: rest =>
    (condition_fragment cond :: (if cond.logic ≠ "" then [cond.logic] else []))
      ++ where_parts rest

/-- `where_clause = " ".join(where_parts)` (src line 819). -/
def build_where_clause (conds : List FilterCondition) : String :=
  py_join " " (where_parts conds)

/-- Combination with the free-text filter (src lines 820-824): when
`custom_where` is non-empty, parenthesize and conjoin; a non-empty
condition clause keeps its own parentheses, an empty one is replaced by
the raw filter verbatim. -/
def combined_where_clause (conds : List FilterCondition) (custom_where : String) : String :=
  let wc := build_where_clause conds
  if custom_where ≠ "" then
    if wc ≠ "" then "(" ++ wc ++ ") AND (" ++ custom_where ++ ")" else custom_where
  else wc

/-- Translation of the SELECT-list construction (src lines 800-806):
empty selection means `*`; otherwise the quoted names are comma-joined;
`DISTINCT ` is prepended when the flag is set. -/
def select_clause (selected_columns : List String) (distinct : Bool) : String :=
  let base :=
    if selected_columns ≠ [] then py_join ", " (selected_columns.map quote_column)
    else "*"
  if distinct then "DISTINCT " ++ base else base

/-- A full query specification, as gathered by the explore page before
SQL assembly. -/
structure QuerySpec where
  table : String
  columns : List String
  conditions : List FilterCondition
  rawFilter : String
  orderBy : Option (String × String)
  limit : Nat
  distinct : Bool
deriving DecidableEq

/-- The ORDER BY fragment (src lines 827-829): present only when an
order column was chosen. -/
def order_clause : Option (String × String) → String
  | none => ""
  | some (col, dir) => "ORDER BY " ++ quote_column col ++ " " ++ dir

/-- Translation of the final SQL assembly (src lines 832-837): the
SELECT and FROM lines, then the optional WHERE and ORDER BY lines, then
the LIMIT line. -/
def assemble (spec : QuerySpec) : String :=
  let sql := "SELECT " ++ select_clause spec.columns spec.distinct
      ++ "\nFROM " ++ spec.table
  let wc := combined_where_clause spec.conditions spec.rawFilter
  let sql := if wc ≠ "" then sql ++ "\nWHERE " ++ wc else sql
  let oc := order_clause spec.orderBy
  let sql := if oc ≠ "" then sql ++ "\n" ++ oc else sql
  sql ++ "\nLIMIT " ++ toString spec.limit

/-! ## Condition collection (src lines 704-755)

The per-condition widgets produce a column, an operator, a value and a
logic token; the loop body then decides whether the condition enters
`where_conditions` at all. -/

/-- The raw widget values for one condition row. -/
structure ConditionInput where
  column : String
  operator : String
  value : String
  logic : String
deriving DecidableEq

/-- Translation of the append logic (src lines 742-755): nullary
operators are always appended with an empty value; binary operators are
appended only when the entered value is non-empty. -/
def collect_condition (inp : ConditionInput) : Option FilterCondition :=
  if is_nullary_op inp.operator then
    some ⟨inp.column, inp.operator, "", inp.logic⟩
  else if inp.value ≠ "" then
    some ⟨inp.column, inp.operator, inp.value, inp.logic⟩
  else none

/-- The `where_conditions` list built by the loop over all rows. -/
def collect_conditions (inputs : List ConditionInput) : List FilterCondition :=
  inputs.filterMap collect_condition

/-! ## Table name normalization (`render_upload_page`, src lines 380-403) -/

/-- Translation of the `table_name` post-processing (src line 392):
`.upper().replace(" ", "_")` applied to whatever the user typed. -/
def normalize_table_name (s : String) : String :=
  py_replace_char (py_upper s) ' ' '_'

/-- Translation of the filename-derived default (src line 384):
`name.rsplit('.', 1)[0].upper().replace(" ", "_").replace("-", "_")`. -/
def default_table_name (filename : String) : String :=
  py_replace_char (py_replace_char (py_upper (py_rsplit_dot_head filename)) ' ' '_') '-' '_'

/-- The fully-qualified target (src line 402). -/
def full_table_name (db schema table : String) : String :=
  db ++ "." ++ schema ++ "." ++ table

/-! ## Table Materializer (`render_upload_page`, src lines 516-555)

The warehouse itself is the external Snowpark connector; its operations
are modelled from the spec (§4.3, §6) as a table store keyed by
fully-qualified name, while the dispatch between the three conflict
policies is translated from the source. -/

/-- An in-memory tabular dataset: ordered column names and rows. -/
structure Dataset where
  cols : List String
  rows : List (List String)
deriving DecidableEq

/-- Modelled from the spec: the warehouse catalog visible to the app —
a finite map from fully-qualified table name to stored dataset. -/
structure Warehouse where
  tables : List (String × Dataset)
deriving DecidableEq

/-- Look up a table by fully-qualified name. -/
def lookup_table (wh : Warehouse) (name : String) : Option Dataset :=
  (wh.tables.find? fun p => p.1 = name).map Prod.snd

/-- Modelled from the spec: `DROP TABLE IF EXISTS` issued by the replace
policy (src line 523) removes the named table when present. -/
def drop_table_if_exists (wh : Warehouse) (name : String) : Warehouse :=
  ⟨wh.tables.filter fun p => ¬ p.1 = name⟩

/-- Modelled from the spec: `createTableFromDataset` in `errorifexists`
mode (src line 530) fails when the name is taken, leaving the catalog
unchanged, and otherwise creates the table. -/
def save_error_if_exists (wh : Warehouse) (name : String) (ds : Dataset) :
    Except String Warehouse :=
  if (lookup_table wh name).isSome then .error "already exists"
  else .ok ⟨(name, ds) :: wh.tables⟩

/-- Modelled from the spec: `createTableFromDataset` in `append` mode
(src line 528) inserts the rows when the columns are compatible, fails
with a schema mismatch otherwise, and creates the table when absent. -/
def save_append (wh : Warehouse) (name : String) (ds : Dataset) :
    Except String Warehouse :=
  match lookup_table wh name with
  | some old =>
    if old.cols = ds.cols then
      .ok ⟨wh.tables.map fun p =>
        if p.1 = name then (p.1, ⟨old.cols, old.rows ++ ds.rows⟩) else p⟩
    else .error "schema mismatch"
  | none => .ok ⟨(name, ds) :: wh.tables⟩

/-- The three values of the `if_exists` radio button (src lines 394-399). -/
inductive IfExistsChoice
  | error
  | replace
  | append
deriving DecidableEq

/-- The session state the upload flow touches. -/
structure UploadState where
  wh : Warehouse
  history : List HistoryRecord
  loadedTable : Option String
deriving DecidableEq

/-- Translation of the create-table handler (src lines 516-555): the
replace policy first drops the target; append uses append mode and the
other two use `errorifexists`; success records a successful history
entry over the full path and remembers the loaded table; failure
records a failed history entry over the bare table name and leaves
everything else untouched. -/
def create_table_flow (st : UploadState) (choice : IfExistsChoice)
    (fullPath tableName : String) (df : Dataset) (ts : Nat) :
    UploadState × Except String Unit :=
  let wh1 := if choice = .replace then drop_table_if_exists st.wh fullPath else st.wh
  let res :=
    match choice with
    | .append => save_append wh1 fullPath df
    | _ => save_error_if_exists wh1 fullPath df
  match res with
  | .ok wh2 =>
    ({ wh := wh2,
       history := add_query_history st.history ts ("CREATE TABLE " ++ fullPath)
         "成功" df.rows.length,
       loadedTable := some fullPath }, .ok ())
  | .error e =>
    ({ st with
       history := add_query_history st.history ts ("CREATE TABLE " ++ tableName)
         "失敗" 0 }, .error e)

/-! ## JSON decoding (`render_upload_page`, src lines 420-455)

The shape dispatch is translated from the source; the underlying
`json.loads` parser is external (Python standard library) and is
modelled from the spec as a recursive-descent parser over the JSON
subset the app exchanges. -/

/-- A parsed JSON value. -/
inductive Json where
  | null
  | bool (b : Bool)
  | num (n : Int)
  | str (s : String)
  | arr (elems : List Json)
  | obj (fields : List (String × Json))

/-- Modelled from the spec: whitespace skipping of the external JSON
parser. -/
def json_skip_ws : List Char → List Char
  | [] => []
  | c :: rest => if py_is_ws c then json_skip_ws rest else c :: rest

/-- Modelled from the spec: the string-literal body scanner of the
external JSON parser (after the opening quote), with the simple
escapes. -/
def json_string_aux : List Char → List Char → Except String (String × List Char)
  | _, [] => Except.error "unterminated string"
  | acc, c :: rest =>
    if c = '"' then Except.ok (⟨acc.reverse⟩, rest)
    else if c = '\\' then
      match rest with
      | [] => Except.error "bad escape"
      | e :: rest2 =>
        if e = '"' then json_string_aux ('"' :: acc) rest2
        else if e = '\\' then json_string_aux ('\\' :: acc) rest2
        else if e = '/' then json_string_aux ('/' :: acc) rest2
        else if e = 'n' then json_string_aux ('\n' :: acc) rest2
        else if e = 't' then json_string_aux ('\t' :: acc) rest2
        else if e = 'r' then json_string_aux ('\r' :: acc) rest2
        else Except.error "unsupported escape"
    else json_string_aux (c :: acc) rest

/-- Leading decimal digits of a character stream. -/
def take_digits : List Char → List Char × List Char
  | [] => ([], [])
  | c :: rest =>
    if c.isDigit then
      let (d, r) := take_digits rest
      (c :: d, r)
    else ([], c :: rest)

/-- Numeric value of a digit string. -/
def digits_to_nat (l : List Char) : Nat :=
  l.foldl (fun acc c => acc * 10 + (c.toNat - 48)) 0

mutual

/-- Modelled from the spec: the value parser of the external `json.loads`
(subset: null, booleans, integers, strings, arrays, objects), with fuel
for termination. -/
def parse_json_value (fuel : Nat) (cs : List Char) : Except String (Json × List Char) :=
  match fuel with
  | 0 => Except.error "too deep"
  | fuel' + 1 =>
    match json_skip_ws cs with
    | [] => Except.error "Expecting value"
    | c :: rest =>
      if c = 'n' then
        if ['u', 'l', 'l'].isPrefixOf rest then Except.ok (.null, rest.drop 3)
        else Except.error "Expecting value"
      else if c = 't' then
        if ['r', 'u', 'e'].isPrefixOf rest then Except.ok (.bool true, rest.drop 3)
        else Except.error "Expecting value"
      else if c = 'f' then
        if ['a', 'l', 's', 'e'].isPrefixOf rest then Except.ok (.bool false, rest.drop 4)
        else Except.error "Expecting value"
      else if c = '"' then
        match json_string_aux [] rest with
        | .ok (s, r) => Except.ok (.str s, r)
        | .error e => Except.error e
      else if c = '-' then
        match take_digits rest with
        | ([], _) => Except.error "Expecting value"
        | (ds, r) => Except.ok (.num (-(digits_to_nat ds : Int)), r)
      else if c.isDigit then
        match take_digits (c :: rest) with
        | (ds, r) => Except.ok (.num (digits_to_nat ds), r)
      else if c = '\x5b' then
        match json_skip_ws rest with
        | '\x5d' :: r => Except.ok (.arr [], r)
        | _ => parse_json_elems fuel' rest []
      else if c = '\x7b' then
        match json_skip_ws rest with
        | '\x7d' :: r => Except.ok (.obj [], r)
        | _ => parse_json_members fuel' rest []
      else Except.error "Expecting value"

/-- Modelled from the spec: the array-element loop of the external JSON
parser. -/
def parse_json_elems (fuel : Nat) (cs : List Char) (acc : List Json) :
    Except String (Json × List Char) :=
  match fuel with
  | 0 => Except.error "too deep"
  | fuel' + 1 =>
    match parse_json_value fuel' cs with
    | .error e => Except.error e
    | .ok (v, r) =>
      match json_skip_ws r with
      | ',' :: r2 => parse_json_elems fuel' r2 (acc ++ [v])
      | '\x5d' :: r2 => Except.ok (.arr (acc ++ [v]), r2)
      | _ => Except.error "Expecting delimiter"

/-- Modelled from the spec: the object-member loop of the external JSON
parser. -/
def parse_json_members (fuel : Nat) (cs : List Char) (acc : List (String × Json)) :
    Except String (Json × List Char) :=
  match fuel with
  | 0 => Except.error "too deep"
  | fuel' + 1 =>
    match json_skip_ws cs with
    | '"' :: r =>
      match json_string_aux [] r with
      | .error e => Except.error e
      | .ok (k, r2) =>
        match json_skip_ws r2 with
        | ':' :: r3 =>
          match parse_json_value fuel' r3 with
          | .error e => Except.error e
          | .ok (v, r4) =>
            match json_skip_ws r4 with
            | ',' :: r5 => parse_json_members fuel' r5 (acc ++ [(k, v)])
            | '\x7d' :: r5 => Except.ok (.obj (acc ++ [(k, v)]), r5)
            | _ => Except.error "Expecting delimiter"
        | _ => Except.error "Expecting colon"
    | _ => Except.error "Expecting property name"

end

/-- Modelled from the spec: the external `json.loads` — parse one value,
tolerate surrounding whitespace, reject trailing content. -/
def json_loads (s : String) : Except String Json :=
  match parse_json_value (2 * s.data.length + 2) s.data with
  | .error e => Except.error e
  | .ok (v, rest) =>
    if json_skip_ws rest = [] then Except.ok v else Except.error "Extra data"

/-- The decoded tabular result: ordered column names plus the parsed
row objects. -/
structure DataFrame where
  columns : List String
  rows : List (List (String × Json))

/-- Add one key at the back unless already present. -/
def insert_column (acc : List String) (k : String) : List String :=
  if acc.contains k then acc else acc ++ [k]

/-- Column list of a row set: keys in order of first appearance. -/
def df_columns (rows : List (List (String × Json))) : List String :=
  rows.foldl (fun acc row => (row.map Prod.fst).foldl insert_column acc) []

/-- Modelled from the spec: `pd.DataFrame` over a list of parsed row
objects. -/
def mk_dataframe (rows : List (List (String × Json))) : DataFrame :=
  ⟨df_columns rows, rows⟩

/-- A decoded row must be a JSON object. -/
def json_row_fields : Json → Except String (List (String × Json))
  | .obj fields => Except.ok fields
  | _ => Except.error "row is not an object"

/-- The array shape: every element is one row object. -/
def dataframe_of_array : Json → Except String DataFrame
  | .arr elems => (elems.mapM json_row_fields).map mk_dataframe
  | _ => Except.error "not an array of rows"

/-- The nonblank lines of the stripped content (src line 447). -/
def json_lines_of (stripped : String) : List String :=
  (py_split_nl stripped).filter fun l => py_strip l ≠ ""

/-- One JSON-Lines row: `json.loads(line)` (src line 447).  A line that
fails to parse aborts with the parser's own error, propagated verbatim
(`str(json_err)` at src line 454); that message reports positions only
within the single line it was given and carries no file-line
information.  A parsed non-object row is rejected by the row model. -/
def decode_json_line (l : String) : Except String (List (String × Json)) :=
  match json_loads l with
  | .ok j => json_row_fields j
  | .error e => Except.error e

/-- Parse a list of JSON-Lines rows in order, aborting on the first
failure (the Python list comprehension of src line 447). -/
def decode_rows : List String → Except String (List (List (String × Json)))
  | [] => Except.ok []
  | l :: rest =>
    match decode_json_line l with
    | .ok fields => (decode_rows rest).map (fields :: ·)
    | .error e => Except.error e

/-- Translation of the JSON-Lines path (src lines 447, 451): parse every
nonblank line, abort on the first failure, else build the dataset. -/
def decode_json_lines (stripped : String) : Except String DataFrame :=
  (decode_rows (json_lines_of stripped)).map mk_dataframe

/-- Translation of the single-object path (src lines 443-444):
`pd.DataFrame([data])` over the parsed object. -/
def decode_json_single (j : Json) : Except String DataFrame :=
  (json_row_fields j).map fun fields => mk_dataframe [fields]

/-- Translation of the JSON shape dispatch (src lines 432-452): content
whose stripped form starts with `[` is decoded as an array of rows;
content starting with `\x7b` is first tried as a single object and falls
back to JSON Lines on any failure; anything else is decoded as JSON
Lines directly. -/
def decode_json_content (content : String) : Except String DataFrame :=
  let stripped := py_strip content
  if py_startswith stripped "\x5b" then
    match json_loads content with
    | .ok data => dataframe_of_array data
    | .error e => Except.error e
  else if py_startswith stripped "\x7b" then
    match
      (match json_loads content with
       | .ok data => decode_json_single data
       | .error e => Except.error e) with
    | .ok df => Except.ok df
    | .error _ => decode_json_lines stripped
  else decode_json_lines stripped

/-! ## Spec-side restatements

These definitions follow the wording of the specification (not the
source) and exist to be compared with the translated code. -/

/-- Spec wording for the WHERE list (spec §4.4 step 2): per condition,
the fragment `<quoted column> <operator> <value>` (value omitted for the
nullary operators), and after every condition except the structurally
last, its logic token. -/
def spec_where_fragments : List FilterCondition → List String
  | [] => []
  | [cond] => [condition_fragment cond]
  | cond :: rest => (condition_fragment cond ++ " " ++ cond.logic) :: spec_where_fragments rest

/-- The shape the data model promises of a condition sequence (spec §3,
FilterCondition): every condition except the structurally last carries a
non-empty logic token, and the last carries none. -/
def logic_wellformed : List FilterCondition → Prop
  | [] => True
  | [cond] => cond.logic = ""
  | cond :: rest => cond.logic ≠ "" ∧ logic_wellformed rest

/-! ## Helper lemmas -/

/-- Uppercasing never yields a lowercase letter. -/
theorem toUpper_not_lower (c : Char) : (Char.toUpper c).isLower = false := by
  simp only [Char.toUpper]
  split
  · rename_i h
    have hv : Nat.isValidChar (c.toNat - 32) := Or.inl (by omega)
    have hn : (Char.ofNat (c.toNat - 32)).toNat = c.toNat - 32 := by
      simp only [Char.ofNat]
      rw [dif_pos hv]
      rfl
    have hn' : ((Char.ofNat (c.toNat - 32)).val).toNat = c.toNat - 32 := hn
    simp only [Char.isLower]
    have h97 : ¬ ((Char.ofNat (c.toNat - 32)).val ≥ 97) := by
      intro hc
      have hc' : (97 : UInt32).toNat ≤ ((Char.ofNat (c.toNat - 32)).val).toNat := hc
      have h97n : (97 : UInt32).toNat = 97 := by decide
      omega
    simp [h97]
  · rename_i h
    simp only [Char.isLower]
    by_contra hb
    simp only [Bool.not_eq_false, Bool.and_eq_true, decide_eq_true_eq] at hb
    apply h
    have h1 : (97 : UInt32).toNat ≤ c.val.toNat := hb.1
    have h2 : c.val.toNat ≤ (122 : UInt32).toNat := hb.2
    have e1 : (97 : UInt32).toNat = 97 := by decide
    have e2 : (122 : UInt32).toNat = 122 := by decide
    have hh : Char.toNat c = c.val.toNat := rfl
    constructor <;> omega

/-- Two suffix checks that disagree at some position (from the end)
cannot both hold. -/
theorem py_endswith_clash (s t u : String) (i : Nat)
    (hit : i < t.data.reverse.length) (hiu : i < u.data.reverse.length)
    (hne : t.data.reverse.get ⟨i, hit⟩ ≠ u.data.reverse.get ⟨i, hiu⟩)
    (ht : py_endswith s t = true) : py_endswith s u = false := by
  by_contra hb
  simp only [Bool.not_eq_false] at hb
  simp only [py_endswith, List.isSuffixOf] at ht hb
  have hpt : t.data.reverse <+: s.data.reverse := List.isPrefixOf_iff_prefix.mp ht
  have hpu : u.data.reverse <+: s.data.reverse := List.isPrefixOf_iff_prefix.mp hb
  have h1 := hpt.getElem hit
  have h2 := hpu.getElem hiu
  apply hne
  simp only [List.get_eq_getElem]
  rw [h1, h2]

/-- The characters of a quoted column name. -/
theorem quote_column_data (x : String) :
    (quote_column x).data = '"' :: (x.data ++ ['"']) := by
  simp [quote_column, String.data_append]

/-- Every condition fragment begins with the opening quote of its
column. -/
theorem condition_fragment_head (cond : FilterCondition) :
    ∃ l, (condition_fragment cond).data = '"' :: l := by
  unfold condition_fragment
  split
  · exact ⟨cond.column.data ++ '"' :: ' ' :: cond.operator.data,
      by simp [String.data_append, quote_column_data]⟩
  · exact ⟨cond.column.data ++ '"' :: ' ' :: (cond.operator.data ++ ' ' :: cond.value.data),
      by simp [String.data_append, quote_column_data]⟩

/-- A join whose first part starts with `c` starts with `c`. -/
theorem py_join_head (sep x : String) (xs : List String) (c : Char) (l : List Char)
    (hx : x.data = c :: l) : ∃ m, (py_join sep (x :: xs)).data = c :: m := by
  cases xs with
  | nil => exact ⟨l, by simpa [py_join]⟩
  | cons y ys =>
    exact ⟨l ++ sep.data ++ (py_join sep (y :: ys)).data,
      by simp [py_join, String.data_append, hx]⟩

/-- `where_parts` of a non-empty condition list starts with the first
condition's fragment. -/
theorem where_parts_cons (cond : FilterCondition) (rest : List FilterCondition) :
    ∃ tail, where_parts (cond :: rest) = condition_fragment cond :: tail := by
  unfold where_parts
  split
  · exact ⟨_, rfl⟩
  · exact ⟨_, rfl⟩

/-- A non-empty condition list yields a non-empty WHERE clause. -/
theorem build_where_clause_ne_empty (cond : FilterCondition) (rest : List FilterCondition) :
    build_where_clause (cond :: rest) ≠ "" := by
  obtain ⟨tail, htail⟩ := where_parts_cons cond rest
  obtain ⟨l, hl⟩ := condition_fragment_head cond
  obtain ⟨m, hm⟩ := py_join_head " " _ tail _ _ hl
  unfold build_where_clause
  rw [htail]
  intro h
  have := congrArg String.data h
  rw [hm] at this
  simp at this

/-- On well-formed condition lists, the code's WHERE construction agrees
with the specification's per-position description. -/
theorem where_clause_eq_spec (conds : List FilterCondition) (h : logic_wellformed conds) :
    build_where_clause conds = py_join " " (spec_where_fragments conds) := by
  induction conds with
  | nil => rfl
  | cons cond rest ih =>
    cases rest with
    | nil =>
      simp only [logic_wellformed] at h
      simp [build_where_clause, where_parts, spec_where_fragments, h, py_join]
    | cons c2 r2 =>
      obtain ⟨h1, h2⟩ := h
      have ih' := ih h2
      obtain ⟨p, ps, hw⟩ : ∃ p ps, where_parts (c2 :: r2) = p :: ps := by
        obtain ⟨tail, htail⟩ := where_parts_cons c2 r2
        exact ⟨_, _, htail⟩
      obtain ⟨q, qs, hs⟩ : ∃ q qs, spec_where_fragments (c2 :: r2) = q :: qs := by
        cases r2 <;> exact ⟨_, _, rfl⟩
      unfold build_where_clause at ih' ⊢
      have hwp : where_parts (cond :: c2 :: r2) =
          condition_fragment cond :: cond.logic :: where_parts (c2 :: r2) := by
        unfold where_parts
        rw [if_pos h1]
        rfl
      have hsf : spec_where_fragments (cond :: c2 :: r2) =
          (condition_fragment cond ++ " " ++ cond.logic) :: spec_where_fragments (c2 :: r2) :=
        rfl
      rw [hwp, hsf, hw, hs]
      rw [hw, hs] at ih'
      simp only [py_join]
      rw [ih']
      simp [String.append_assoc]

/-! ## Claim theorems -/

/-- C1: On every condition sequence whose logic tokens are non-empty
exactly off the structurally last condition, the assembled WHERE clause
joins, in order, each condition's `<quoted column> <operator> <value>`
fragment (value omitted for `IS NULL`/`IS NOT NULL`) with its logic
token appended after every condition but the last, all separated by
single spaces; a non-empty raw filter is combined as
`(<conditions>) AND (<rawFilter>)` when conditions exist and is used
verbatim otherwise. -/
theorem where_clause_matches_spec (conds : List FilterCondition) (raw : String)
    (h : logic_wellformed conds) :
    build_where_clause conds = py_join " " (spec_where_fragments conds) ∧
    combined_where_clause conds raw =
      (if raw = "" then py_join " " (spec_where_fragments conds)
       else if conds = [] then raw
       else "(" ++ py_join " " (spec_where_fragments conds) ++ ") AND (" ++ raw ++ ")") := by
  have hmain := where_clause_eq_spec conds h
  refine ⟨hmain, ?_⟩
  unfold combined_where_clause
  by_cases hr : raw = ""
  · simp [hr, hmain]
  · rw [if_pos hr] at *
    cases conds with
    | nil =>
      simp [hr, build_where_clause, where_parts, py_join]
    | cons cond rest =>
      rw [if_neg hr]
      simp only [if_neg (List.cons_ne_nil cond rest)]
      rw [if_pos (build_where_clause_ne_empty cond rest), hmain]

/-- Witness for C1 at the spec's own example pair of conditions. -/
theorem where_clause_matches_spec_witness :
    logic_wellformed
      [⟨"AMOUNT", ">", "1000", "AND"⟩, ⟨"STATUS", "=", "\x27ACTIVE\x27", ""⟩] ∧
    build_where_clause
      [⟨"AMOUNT", ">", "1000", "AND"⟩, ⟨"STATUS", "=", "\x27ACTIVE\x27", ""⟩] =
      "\"AMOUNT\" > 1000 AND \"STATUS\" = \x27ACTIVE\x27" := by
  refine ⟨⟨by decide, rfl⟩, ?_⟩
  exact (where_clause_matches_spec
    [⟨"AMOUNT", ">", "1000", "AND"⟩, ⟨"STATUS", "=", "\x27ACTIVE\x27", ""⟩] ""
    ⟨by decide, rfl⟩).1.trans (by decide)

/-- C2: Query assembly is a pure function of the QuerySpec: assembling
twice from the same unchanged spec yields byte-identical text. -/
theorem assemble_deterministic (spec1 spec2 : QuerySpec) (h : spec1 = spec2) :
    assemble spec1 = assemble spec2 := by
  rw [h]

/-- Witness for C2 on a concrete specification. -/
theorem assemble_deterministic_witness :
    assemble ⟨"DB.SC.T", ["A"], [], "", none, 100, false⟩ =
      assemble ⟨"DB.SC.T", ["A"], [], "", none, 100, false⟩ :=
  assemble_deterministic ⟨"DB.SC.T", ["A"], [], "", none, 100, false⟩
    ⟨"DB.SC.T", ["A"], [], "", none, 100, false⟩ rfl

/-- C3: From any starting log, 11 successive record calls leave exactly
10 entries, newest first, with the oldest of the 11 evicted. -/
theorem history_log_bounded_newest_first (h : List HistoryRecord)
    (c0 c1 c2 c3 c4 c5 c6 c7 c8 c9 c10 : RecordCall) :
    List.foldl apply_record_call h [c0, c1, c2, c3, c4, c5, c6, c7, c8, c9, c10] =
      [record_of_call c10, record_of_call c9, record_of_call c8, record_of_call c7,
       record_of_call c6, record_of_call c5, record_of_call c4, record_of_call c3,
       record_of_call c2, record_of_call c1] ∧
    (List.foldl apply_record_call h [c0, c1, c2, c3, c4, c5, c6, c7, c8, c9, c10]).length
      = 10 := by
  have e : List.foldl apply_record_call h [c0, c1, c2, c3, c4, c5, c6, c7, c8, c9, c10] =
      [record_of_call c10, record_of_call c9, record_of_call c8, record_of_call c7,
       record_of_call c6, record_of_call c5, record_of_call c4, record_of_call c3,
       record_of_call c2, record_of_call c1] := by
    simp [apply_record_call, add_query_history, record_of_call, List.take_succ_cons,
      List.take_take]
  exact ⟨e, by rw [e]; rfl⟩

/-- C6: The detector is a pure function of the lowercased suffix of the
file name: each recognized extension maps to its format tag and
anything else maps to UNKNOWN. -/
theorem detect_file_type_pure_suffix (name : String) :
    (py_endswith (py_lower name) ".csv" = true → detect_file_type name = "CSV") ∧
    (py_endswith (py_lower name) ".tsv" = true → detect_file_type name = "TSV") ∧
    (py_endswith (py_lower name) ".json" = true ∨ py_endswith (py_lower name) ".jsonl" = true →
      detect_file_type name = "JSON") ∧
    (py_endswith (py_lower name) ".parquet" = true → detect_file_type name = "PARQUET") ∧
    (py_endswith (py_lower name) ".avro" = true → detect_file_type name = "AVRO") ∧
    (py_endswith (py_lower name) ".orc" = true → detect_file_type name = "ORC") ∧
    (py_endswith (py_lower name) ".csv" = false → py_endswith (py_lower name) ".tsv" = false →
      py_endswith (py_lower name) ".json" = false →
      py_endswith (py_lower name) ".jsonl" = false →
      py_endswith (py_lower name) ".parquet" = false →
      py_endswith (py_lower name) ".avro" = false →
      py_endswith (py_lower name) ".orc" = false →
      detect_file_type name = "UNKNOWN") := by
  refine ⟨?_, ?_, ?_, ?_, ?_, ?_, ?_⟩
  · intro h
    simp [detect_file_type, h]
  · intro h
    have n1 := py_endswith_clash (py_lower name) ".tsv" ".csv" 2
      (by decide) (by decide) (by decide) h
    simp [detect_file_type, h, n1]
  · intro h
    rcases h with h | h
    · have n1 := py_endswith_clash (py_lower name) ".json" ".csv" 0
        (by decide) (by decide) (by decide) h
      have n2 := py_endswith_clash (py_lower name) ".json" ".tsv" 0
        (by decide) (by decide) (by decide) h
      simp [detect_file_type, h, n1, n2]
    · have n1 := py_endswith_clash (py_lower name) ".jsonl" ".csv" 0
        (by decide) (by decide) (by decide) h
      have n2 := py_endswith_clash (py_lower name) ".jsonl" ".tsv" 0
        (by decide) (by decide) (by decide) h
      simp [detect_file_type, h, n1, n2]
  · intro h
    have n1 := py_endswith_clash (py_lower name) ".parquet" ".csv" 0
      (by decide) (by decide) (by decide) h
    have n2 := py_endswith_clash (py_lower name) ".parquet" ".tsv" 0
      (by decide) (by decide) (by decide) h
    have n3 := py_endswith_clash (py_lower name) ".parquet" ".json" 0
      (by decide) (by decide) (by decide) h
    have n4 := py_endswith_clash (py_lower name) ".parquet" ".jsonl" 0
      (by decide) (by decide) (by decide) h
    simp [detect_file_type, h, n1, n2, n3, n4]
  · intro h
    have n1 := py_endswith_clash (py_lower name) ".avro" ".csv" 0
      (by decide) (by decide) (by decide) h
    have n2 := py_endswith_clash (py_lower name) ".avro" ".tsv" 0
      (by decide) (by decide) (by decide) h
    have n3 := py_endswith_clash (py_lower name) ".avro" ".json" 0
      (by decide) (by decide) (by decide) h
    have n4 := py_endswith_clash (py_lower name) ".avro" ".jsonl" 0
      (by decide) (by decide) (by decide) h
    have n5 := py_endswith_clash (py_lower name) ".avro" ".parquet" 0
      (by decide) (by decide) (by decide) h
    simp [detect_file_type, h, n1, n2, n3, n4, n5]
  · intro h
    have n1 := py_endswith_clash (py_lower name) ".orc" ".csv" 0
      (by decide) (by decide) (by decide) h
    have n2 := py_endswith_clash (py_lower name) ".orc" ".tsv" 0
      (by decide) (by decide) (by decide) h
    have n3 := py_endswith_clash (py_lower name) ".orc" ".json" 0
      (by decide) (by decide) (by decide) h
    have n4 := py_endswith_clash (py_lower name) ".orc" ".jsonl" 0
      (by decide) (by decide) (by decide) h
    have n5 := py_endswith_clash (py_lower name) ".orc" ".parquet" 0
      (by decide) (by decide) (by decide) h
    have n6 := py_endswith_clash (py_lower name) ".orc" ".avro" 0
      (by decide) (by decide) (by decide) h
    simp [detect_file_type, h, n1, n2, n3, n4, n5, n6]
  · intro h1 h2 h3 h4 h5 h6 h7
    simp [detect_file_type, h1, h2, h3, h4, h5, h6, h7]

/-- Witness for C6 at concrete file names. -/
theorem detect_file_type_pure_suffix_witness :
    py_endswith (py_lower "Report.CSV") ".csv" = true ∧
    detect_file_type "Report.CSV" = "CSV" ∧
    py_endswith (py_lower "data.proto") ".csv" = false ∧
    detect_file_type "data.proto" = "UNKNOWN" := by
  refine ⟨by decide, (detect_file_type_pure_suffix "Report.CSV").1 (by decide),
    by decide, ?_⟩
  exact (detect_file_type_pure_suffix "data.proto").2.2.2.2.2.2 (by decide) (by decide)
    (by decide) (by decide) (by decide) (by decide) (by decide)

/-- C7: The SELECT list is exactly `*` for an empty selection and the
individually quoted, comma-joined names in order otherwise; setting the
distinct flag prepends `DISTINCT ` exactly once (the undistinct list
never already starts with it). -/
theorem select_clause_star_and_distinct (cols : List String) :
    select_clause cols false =
      (if cols = [] then "*" else py_join ", " (cols.map quote_column)) ∧
    select_clause cols true = "DISTINCT " ++ select_clause cols false ∧
    py_startswith (select_clause cols false) "DISTINCT " = false := by
  refine ⟨?_, ?_, ?_⟩
  · cases cols <;> simp [select_clause]
  · rfl
  · cases cols with
    | nil => decide
    | cons c cs =>
      have hq := quote_column_data c
      obtain ⟨m, hm⟩ := py_join_head ", " (quote_column c) (cs.map quote_column) '"' _ hq
      have hsel : select_clause (c :: cs) false =
          py_join ", " (quote_column c :: cs.map quote_column) := by
        simp [select_clause]
      rw [py_startswith, hsel, hm]
      simp [List.isPrefixOf]

/-- Witness for C7 on concrete column selections. -/
theorem select_clause_star_and_distinct_witness :
    select_clause [] false = "*" ∧
    select_clause [] true = "DISTINCT *" ∧
    select_clause ["a", "B"] false = "\"a\", \"B\"" := by
  refine ⟨?_, ?_, ?_⟩
  · exact ((select_clause_star_and_distinct []).1).trans (by decide)
  · exact ((select_clause_star_and_distinct []).2.1).trans (by decide)
  · exact ((select_clause_star_and_distinct ["a", "B"]).1).trans (by decide)

/-- C8: The stored history entry keeps the timestamp, outcome and row
count unchanged and stores the query text truncated at 100 characters
with the ellipsis marker appended when it was longer, so the stored
text never exceeds 103 characters. -/
theorem history_record_fields (ts : Nat) (q status : String) (rows : Nat) :
    (mk_history_record ts q status rows).timestamp = ts ∧
    (mk_history_record ts q status rows).status = status ∧
    (mk_history_record ts q status rows).rows = rows ∧
    (mk_history_record ts q status rows).query = truncate_query q ∧
    (q.length ≤ 100 → (mk_history_record ts q status rows).query = q) ∧
    (q.length > 100 →
      (mk_history_record ts q status rows).query = py_take q 100 ++ "...") ∧
    (mk_history_record ts q status rows).query.length ≤ 103 := by
  refine ⟨rfl, rfl, rfl, rfl, ?_, ?_, ?_⟩
  · intro h
    unfold mk_history_record truncate_query
    rw [if_neg (by omega)]
  · intro h
    unfold mk_history_record truncate_query
    rw [if_pos h]
  · unfold mk_history_record truncate_query
    split
    · rename_i h
      have h1 : (py_take q 100).length = min 100 q.data.length := by
        show (q.data.take 100).length = min 100 q.data.length
        exact List.length_take 100 q.data
      have h2 : ("..." : String).length = 3 := rfl
      rw [String.length_append]
      omega
    · rename_i h
      show q.length ≤ 103
      omega

/-- Witness for C8: a short query is stored verbatim, a long one
is truncated with the ellipsis appended. -/
theorem history_record_fields_witness :
    (mk_history_record 7 "SELECT 1" "成功" 3).query = "SELECT 1" ∧
    (mk_history_record 7 ⟨List.replicate 150 'q'⟩ "失敗" 0).query =
      py_take ⟨List.replicate 150 'q'⟩ 100 ++ "..." := by
  constructor
  · exact (history_record_fields 7 "SELECT 1" "成功" 3).2.2.2.2.1 (by decide)
  · exact (history_record_fields 7 ⟨List.replicate 150 'q'⟩ "失敗" 0).2.2.2.2.2.1
      (by simp [String.length])

/-- C9: A structured condition with a binary operator and an empty
value never reaches the WHERE builder, while nullary conditions are
always kept (with an empty stored value); hence every collected
condition either uses a nullary operator or carries a non-empty value. -/
theorem empty_value_conditions_omitted (inputs : List ConditionInput) :
    (∀ inp : ConditionInput, is_nullary_op inp.operator = true →
      collect_condition inp = some ⟨inp.column, inp.operator, "", inp.logic⟩) ∧
    (∀ inp : ConditionInput, is_nullary_op inp.operator = false → inp.value = "" →
      collect_condition inp = none) ∧
    (∀ cond ∈ collect_conditions inputs,
      is_nullary_op cond.operator = false → cond.value ≠ "") := by
  refine ⟨?_, ?_, ?_⟩
  · intro inp h
    simp [collect_condition, h]
  · intro inp h hv
    simp [collect_condition, h, hv]
  · intro cond hmem hop
    obtain ⟨inp, hin, hc⟩ := List.mem_filterMap.mp hmem
    unfold collect_condition at hc
    split at hc
    · rename_i hn
      rw [Option.some_inj] at hc
      rw [← hc] at hop
      simp at hop
      exact absurd hn (by simp [hop])
    · split at hc
      · rename_i hv
        rw [Option.some_inj] at hc
        rw [← hc]
        exact hv
      · exact absurd hc (by simp)

/-- Witness for C9: an empty-valued `=` condition is dropped, a nullary
condition is kept. -/
theorem empty_value_conditions_omitted_witness :
    collect_condition ⟨"A", "=", "", "AND"⟩ = none ∧
    collect_condition ⟨"B", "IS NULL", "x", ""⟩ = some ⟨"B", "IS NULL", "", ""⟩ := by
  constructor
  · exact (empty_value_conditions_omitted []).2.1 ⟨"A", "=", "", "AND"⟩ (by decide) rfl
  · exact (empty_value_conditions_omitted []).1 ⟨"B", "IS NULL", "x", ""⟩ (by decide)

/-- C10: The table-name segment used to build the fully-qualified
target is uppercased with spaces replaced by underscores, so it never
contains a lowercase letter or a space; the filename-derived default
additionally contains no hyphen. -/
theorem table_name_uppercased_no_spaces (s : String) :
    (∀ c ∈ (normalize_table_name s).data, c.isLower = false ∧ c ≠ ' ') ∧
    (∀ c ∈ (default_table_name s).data, c.isLower = false ∧ c ≠ ' ' ∧ c ≠ '-') := by
  constructor
  · intro c hc
    simp only [normalize_table_name, py_replace_char, py_upper, List.map_map] at hc
    obtain ⟨a, _, ha⟩ := List.mem_map.mp hc
    simp only [Function.comp] at ha
    by_cases hsp : Char.toUpper a = ' '
    · rw [if_pos hsp] at ha
      rw [← ha]
      exact ⟨rfl, by decide⟩
    · rw [if_neg hsp] at ha
      rw [← ha]
      exact ⟨toUpper_not_lower a, hsp⟩
  · intro c hc
    simp only [default_table_name, py_replace_char, py_upper, List.map_map] at hc
    obtain ⟨a, _, ha⟩ := List.mem_map.mp hc
    simp only [Function.comp] at ha
    by_cases hsp : Char.toUpper a = ' '
    · rw [if_pos hsp] at ha
      rw [if_neg (by decide : ¬ ('_' : Char) = '-')] at ha
      rw [← ha]
      exact ⟨rfl, by decide, by decide⟩
    · rw [if_neg hsp] at ha
      by_cases hhy : Char.toUpper a = '-'
      · rw [if_pos hhy] at ha
        rw [← ha]
        exact ⟨rfl, by decide, by decide⟩
      · rw [if_neg hhy] at ha
        rw [← ha]
        exact ⟨toUpper_not_lower a, hsp, hhy⟩

/-- Witness for C10 at a concrete messy name. -/
theorem table_name_uppercased_no_spaces_witness :
    'M' ∈ (normalize_table_name "my table").data ∧
    ('M'.isLower = false ∧ 'M' ≠ ' ') ∧
    '_' ∈ (default_table_name "sales-data 2024.csv").data ∧
    ('_'.isLower = false ∧ '_' ≠ ' ' ∧ '_' ≠ '-') := by
  refine ⟨by decide, ?_, by decide, ?_⟩
  · exact (table_name_uppercased_no_spaces "my table").1 'M' (by decide)
  · exact (table_name_uppercased_no_spaces "sales-data 2024.csv").2 '_' (by decide)

/-- C4: Creating a table under the Error conflict policy when the
target name already exists fails with the table-exists error, performs
no catalog change (no drop, contents untouched), leaves the loaded-table
marker alone, and records a failed history entry instead of crashing. -/
theorem materialize_error_mode_conflict (st : UploadState) (fullPath tableName : String)
    (df : Dataset) (ts : Nat) (h : (lookup_table st.wh fullPath).isSome = true) :
    (create_table_flow st .error fullPath tableName df ts).2 =
      Except.error "already exists" ∧
    (create_table_flow st .error fullPath tableName df ts).1.wh = st.wh ∧
    (create_table_flow st .error fullPath tableName df ts).1.loadedTable =
      st.loadedTable ∧
    (create_table_flow st .error fullPath tableName df ts).1.history =
      add_query_history st.history ts ("CREATE TABLE " ++ tableName) "失敗" 0 := by
  unfold create_table_flow
  simp [save_error_if_exists, h]

/-- Witness for C4 on a one-table warehouse. -/
theorem materialize_error_mode_conflict_witness :
    (lookup_table ⟨[("DB.SC.T", ⟨["A"], [["1"]]⟩)]⟩ "DB.SC.T").isSome = true ∧
    (create_table_flow ⟨⟨[("DB.SC.T", ⟨["A"], [["1"]]⟩)]⟩, [], none⟩ .error
      "DB.SC.T" "T" ⟨["A"], [["2"]]⟩ 5).2 = Except.error "already exists" ∧
    (create_table_flow ⟨⟨[("DB.SC.T", ⟨["A"], [["1"]]⟩)]⟩, [], none⟩ .error
      "DB.SC.T" "T" ⟨["A"], [["2"]]⟩ 5).1.wh = ⟨[("DB.SC.T", ⟨["A"], [["1"]]⟩)]⟩ := by
  have h := materialize_error_mode_conflict ⟨⟨[("DB.SC.T", ⟨["A"], [["1"]]⟩)]⟩, [], none⟩
    "DB.SC.T" "T" ⟨["A"], [["2"]]⟩ 5 (by decide)
  exact ⟨by decide, h.1, h.2.1⟩

/-- If the row decoder succeeds, every nonblank line parsed. -/
theorem decode_rows_ok_all (ls : List String) (rows : List (List (String × Json)))
    (h : decode_rows ls = Except.ok rows) :
    ∀ l ∈ ls, ∃ fields, decode_json_line l = Except.ok fields := by
  induction ls generalizing rows with
  | nil => simp
  | cons x xs ih =>
    intro l hl
    unfold decode_rows at h
    cases hx : decode_json_line x with
    | error e =>
      rw [hx] at h
      exact absurd h (by simp)
    | ok f =>
      rw [hx] at h
      rcases List.mem_cons.mp hl with rfl | hl'
      · exact ⟨f, hx⟩
      · cases hrest : decode_rows xs with
        | error e =>
          rw [hrest] at h
          exact absurd h (by simp [Except.map])
        | ok rs => exact ih rs hrest l hl'

/-- The first failing line aborts the row decoder with its error. -/
theorem decode_rows_first_error (pre : List String) (l : String) (post : List String)
    (e : String)
    (hpre : ∀ p ∈ pre, ∃ fields, decode_json_line p = Except.ok fields)
    (hl : decode_json_line l = Except.error e) :
    decode_rows (pre ++ l :: post) = Except.error e := by
  induction pre with
  | nil => simp [decode_rows, hl]
  | cons x xs ih =>
    obtain ⟨f, hf⟩ := hpre x (by simp)
    have ih' := ih fun p hp => hpre p (by simp [hp])
    simp only [List.cons_append]
    unfold decode_rows
    rw [hf, ih']
    rfl

/-- C5 (amended): JSON decoding follows the declared detection order
(array shape for content whose stripped form starts with `[`,
single-object-first with JSON-Lines fallback for `\x7b`, JSON-Lines
otherwise); the three one-row shapes all decode to a dataset with
column `a`; and one malformed line among JSON-Lines aborts the whole
decode with the underlying parse error propagated verbatim (which does
not identify the offending file line), yielding no partial dataset. -/
theorem json_decode_shape_dispatch :
    (∀ content : String, py_startswith (py_strip content) "\x5b" = true →
      decode_json_content content =
        (match json_loads content with
         | .ok data => dataframe_of_array data
         | .error e => Except.error e)) ∧
    (∀ content : String, py_startswith (py_strip content) "\x5b" = false →
      py_startswith (py_strip content) "\x7b" = true →
      decode_json_content content =
        (match json_loads content with
         | .ok data =>
           (match decode_json_single data with
            | .ok df => Except.ok df
            | .error _ => decode_json_lines (py_strip content))
         | .error _ => decode_json_lines (py_strip content))) ∧
    (∀ content : String, py_startswith (py_strip content) "\x5b" = false →
      py_startswith (py_strip content) "\x7b" = false →
      decode_json_content content = decode_json_lines (py_strip content)) ∧
    decode_json_content "\x5b\x7b\"a\":1\x7d\x5d" =
      Except.ok ⟨["a"], [[("a", Json.num 1)]]⟩ ∧
    decode_json_content "\x7b\"a\":1\x7d" =
      Except.ok ⟨["a"], [[("a", Json.num 1)]]⟩ ∧
    decode_json_content "\x7b\"a\":1\x7d\n" =
      Except.ok ⟨["a"], [[("a", Json.num 1)]]⟩ ∧
    decode_json_content "\x7b\"a\":1\x7d\nBAD\n\x7b\"a\":3\x7d" =
      Except.error "Expecting value" ∧
    (∀ stripped : String, ∀ df : DataFrame,
      decode_json_lines stripped = Except.ok df →
      ∀ l ∈ json_lines_of stripped, ∃ fields, decode_json_line l = Except.ok fields) ∧
    (∀ (pre : List String) (l : String) (post : List String) (stripped e : String),
      json_lines_of stripped = pre ++ l :: post →
      (∀ p ∈ pre, ∃ fields, decode_json_line p = Except.ok fields) →
      json_loads l = Except.error e →
      decode_json_lines stripped = Except.error e) := by
  refine ⟨?_, ?_, ?_, by rfl, by rfl, by rfl, by rfl, ?_, ?_⟩
  · intro content h
    simp only [decode_json_content, h]
    rfl
  · intro content h1 h2
    simp only [decode_json_content, h1, h2]
    cases hjl : json_loads content with
    | ok data =>
      cases hds : decode_json_single data with
      | ok df => simp
      | error e => simp
    | error e => simp
  · intro content h1 h2
    simp only [decode_json_content, h1, h2]
    rfl
  · intro stripped df h l hl
    unfold decode_json_lines at h
    cases hr : decode_rows (json_lines_of stripped) with
    | error e =>
      rw [hr] at h
      exact absurd h (by simp [Except.map])
    | ok rows => exact decode_rows_ok_all _ rows hr l hl
  · intro pre l post stripped e hsplit hpre hbad
    have hline : decode_json_line l = Except.error e := by
      unfold decode_json_line
      rw [hbad]
    unfold decode_json_lines
    rw [hsplit, decode_rows_first_error pre l post _ hpre hline]
    rfl

/-- Witness for C5: the dispatch conjuncts applied at concrete inputs. -/
theorem json_decode_shape_dispatch_witness :
    py_startswith (py_strip " \x5b1\x5d ") "\x5b" = true ∧
    decode_json_content " \x5b1\x5d " =
      (match json_loads " \x5b1\x5d " with
       | .ok data => dataframe_of_array data
       | .error e => Except.error e) ∧
    py_startswith (py_strip "notjson") "\x5b" = false ∧
    py_startswith (py_strip "notjson") "\x7b" = false ∧
    decode_json_content "notjson" = decode_json_lines (py_strip "notjson") := by
  refine ⟨by decide, ?_, by decide, by decide, ?_⟩
  · exact json_decode_shape_dispatch.1 " \x5b1\x5d " (by decide)
  · exact json_decode_shape_dispatch.2.2.1 "notjson" (by decide) (by decide)

/-- Counterexample for C5 as originally worded: the error raised for a
malformed JSON-Lines line is the parser's own message, propagated
verbatim; it is identical for two inputs whose offending lines differ
and does not contain the offending line's text, so the decode error
does not name the offending line. -/
theorem json_decode_line_naming_counterexample :
    decode_json_content "\x7b\"a\":1\x7d\nBAD\n\x7b\"a\":3\x7d" =
      Except.error "Expecting value" ∧
    decode_json_content "\x7b\"a\":1\x7d\n\x7b\"a\":2\x7d\nWRONG" =
      Except.error "Expecting value" ∧
    ("BAD" : String) ≠ "WRONG" ∧
    ¬ ("BAD".data <:+: "Expecting value".data) := by
  exact ⟨by rfl, by rfl, by decide, by decide⟩
